import Mathlib

/-!
Verification of the attendance-report application (`bbb.py` / `vv.py`).

Times of day are embedded as seconds since midnight (a `Nat`): the Python
`datetime.time(h, m)` value becomes `h * 3600 + m * 60`, and the permissive
`pd.to_datetime` fallback can additionally produce times with a nonzero
seconds component, so second granularity is the faithful domain.

The Python classification functions anchor their arithmetic on
`datetime.today().date()`; we embed that as an explicit `today : Nat`
parameter (the day number), with `datetime.combine(today, t)` becoming
`today * 86400 + t` seconds on an absolute axis.
-/

/-- `SHIFT_START = time(9, 15)`, in seconds of day. -/
def SHIFT_START : Nat := 9 * 3600 + 15 * 60

/-- `SHIFT_END = time(17, 45)`, in seconds of day. -/
def SHIFT_END : Nat := 17 * 3600 + 45 * 60

/-- `LATE_UNIT_MINUTES = 15`. -/
def LATE_UNIT_MINUTES : Nat := 15

/-- `HALF_DAY_START_TIME_NEW = time(10, 16)`, in seconds of day. -/
def HALF_DAY_START_TIME_NEW : Nat := 10 * 3600 + 16 * 60

/-- `HALF_DAY_END_TIME_NEW = time(13, 30)`, in seconds of day. -/
def HALF_DAY_END_TIME_NEW : Nat := 13 * 3600 + 30 * 60

/-- `EVENING_HALF_DAY_TIME = time(16, 45)`, in seconds of day. -/
def EVENING_HALF_DAY_TIME : Nat := 16 * 3600 + 45 * 60

/-- `ONE_HOUR_LEAVE_START_TIME = time(16, 46)`, in seconds of day. -/
def ONE_HOUR_LEAVE_START_TIME : Nat := 16 * 3600 + 46 * 60

/-- `ONE_HOUR_LEAVE_END_TIME = time(17, 44)`, in seconds of day. -/
def ONE_HOUR_LEAVE_END_TIME : Nat := 17 * 3600 + 44 * 60

/-- The f-string label `f'\x7blate_units\x7d x 15 Min Late'`. -/
def lateLabel (n : ℤ) : String := toString n ++ " x 15 Min Late"

/-- Python `str.strip()`: drop leading and trailing whitespace. (Defined
structurally on the character list so that proofs can evaluate it; Lean's
built-in `String.trim` is equivalent but is implemented with substring
auxiliaries that the kernel cannot unfold.) -/
def pyStrip (s : String) : String :=
  String.mk (((s.data.dropWhile Char.isWhitespace).reverse.dropWhile
    Char.isWhitespace).reverse)

/-- Worker for `str.split(sep)`: `acc` holds the current field reversed. -/
def splitCharsAux (sep : Char) : List Char → List Char → List (List Char)
  | [], acc => [acc.reverse]
  | c :: rest, acc =>
    if c = sep then acc.reverse :: splitCharsAux sep rest []
    else splitCharsAux sep rest (c :: acc)

/-- Python `str.split(sep)` for a one-character separator: always at least
one field, empty fields kept. -/
def pySplitChar (sep : Char) (s : String) : List String :=
  (splitCharsAux sep s.data []).map String.mk

/-- Python `str.startswith(p)` / an anchored `^p` regex search. -/
def pyStartsWith (s p : String) : Bool := p.data.isPrefixOf s.data

/-- Value of a 1–2 digit decimal numeral, as accepted for `%H` / `%M` by
`datetime.strptime` (zero-padded or not); anything else fails. -/
def digits2 (s : String) : Option Nat :=
  let cs := s.data
  if cs ≠ [] ∧ cs.length ≤ 2 ∧ cs.all Char.isDigit then
    some (cs.foldl (fun a c => 10 * a + (c.toNat - 48)) 0)
  else none

/-- `datetime.strptime(s, "%H:%M").time()`: exactly an hour field (0–23) and
a minute field (0–59) separated by one colon, whole string consumed;
failure is the `ValueError` branch, embedded as `none`. -/
def parseHM (s : String) : Option Nat :=
  match pySplitChar ':' s with
  | [h, m] =>
    match digits2 h, digits2 m with
    | some hv, some mv =>
      if hv ≤ 23 ∧ mv ≤ 59 then some (hv * 3600 + mv * 60) else none
    | _, _ => none
  | _ => none

/-- Outcome of the library call `pd.to_datetime(s, errors='coerce')` followed
by `pd.notna` / `.time()`: the call may itself raise (swallowed by the bare
`except`), may coerce to `NaT` (so `pd.notna` is false), or may yield a
timestamp whose time-of-day component is `t` seconds. The library is
external, so it is embedded as an oracle argument. -/
inductive PdParse where
  | raised : PdParse
  | coerced : PdParse
  | value : Nat → PdParse
deriving DecidableEq

/-- `to_time_safe(s)`: strip; empty or the literals "00:00"/"nan"/"NaT" give
`None`; else strict `%H:%M` parse; else the permissive pandas fallback; every
failure path returns `None` (the function's totality — "never raises" — is
the totality of this Lean function). -/
def to_time_safe (fb : String → PdParse) (s : String) : Option Nat :=
  let t := pyStrip s
  if t = "" ∨ t = "00:00" ∨ t = "nan" ∨ t = "NaT" then none
  else
    match parseHM t with
    | some v => some v
    | none =>
      match fb t with
      | PdParse.value v => some v
      | _ => none

/-- `calculate_late_status(in_time)` from the source, with the wall-clock
date `today` explicit: `datetime.combine(today, x)` is `today * 86400 + x`
on an absolute integer axis, `late_minutes` is the exact rational
`(in_time_dt - shift_start_dt) / 60`, and `math.ceil` is `Int.ceil`. -/
def calculate_late_status (today : Nat) (in_time : Option Nat) :
    ℤ × String × Nat :=
  match in_time with
  | none => (0, "Missing IN Time", 0)
  | some t =>
    let shift_start_dt : ℤ := today * 86400 + SHIFT_START
    let in_time_dt : ℤ := today * 86400 + t
    let half_day_start_dt_new : ℤ := today * 86400 + HALF_DAY_START_TIME_NEW
    let half_day_end_dt_new : ℤ := today * 86400 + HALF_DAY_END_TIME_NEW
    if half_day_start_dt_new ≤ in_time_dt ∧ in_time_dt ≤ half_day_end_dt_new
    then (0, "Half Day Leave (Morning IN)", 1)
    else
      let late_minutes : ℚ := ((in_time_dt : ℚ) - (shift_start_dt : ℚ)) / 60
      if late_minutes ≤ 0 then (0, "On Time", 0)
      else
        let late_units : ℤ := ⌈late_minutes / (LATE_UNIT_MINUTES : ℚ)⌉
        (late_units, lateLabel late_units, 0)

/-- `calculate_early_out_status(out_time)` from the source, date explicit as
in `calculate_late_status`. -/
def calculate_early_out_status (today : Nat) (out_time : Option Nat) :
    ℤ × String × Nat :=
  match out_time with
  | none => (0, "Missing OUT Time", 0)
  | some t =>
    let shift_end_dt : ℤ := today * 86400 + SHIFT_END
    let out_time_dt : ℤ := today * 86400 + t
    let early_out_minutes : ℚ := ((shift_end_dt : ℚ) - (out_time_dt : ℚ)) / 60
    if early_out_minutes ≤ 0 then (0, "On Time/Overtime", 0)
    else
      let one_hour_leave_start_dt : ℤ :=
        today * 86400 + ONE_HOUR_LEAVE_START_TIME
      let one_hour_leave_end_dt : ℤ := today * 86400 + ONE_HOUR_LEAVE_END_TIME
      if one_hour_leave_start_dt ≤ out_time_dt ∧
          out_time_dt ≤ one_hour_leave_end_dt
      then (1, "1 Hour Leave", 0)
      else
        let evening_half_day_dt : ℤ := today * 86400 + EVENING_HALF_DAY_TIME
        if out_time_dt ≤ evening_half_day_dt
        then (0, "Half Day Leave (Evening OUT)", 1)
        else (0, "Other Early Out", 0)

/-- A tidy attendance record as returned by `restructure_attendance_data`
(columns `Employee Name`, `Date/Day`, `Time In`, `Time Out`). -/
structure AttendanceRecord where
  employee : String
  day : String
  time_in : Option Nat
  time_out : Option Nat
deriving DecidableEq

/-- An intermediate extraction record, before the `Status` column is dropped
by the final projection. -/
structure RawRecord where
  employee : String
  day : String
  status : String
  time_in : Option Nat
  time_out : Option Nat
deriving DecidableEq

/-- A record of the calculated dataframe: an attendance record augmented
with the six derived columns attached by the reporting functions. -/
structure ClassifiedRecord where
  employee : String
  time_in : Option Nat
  time_out : Option Nat
  late_units : ℤ
  late_classification : String
  is_morning_half_day : Nat
  early_out_units : ℤ
  early_out_classification : String
  is_evening_half_day : Nat
deriving DecidableEq

/-- `get_day_classification(row)`: the strict-priority daily resolver.
Python `if flag:` on an integer flag tests it against zero. -/
def get_day_classification (row : ClassifiedRecord) : String :=
  if row.is_morning_half_day ≠ 0 ∧ row.is_evening_half_day ≠ 0 then
    "FULL Day Leave (Morn + Even Half)"
  else if row.is_morning_half_day ≠ 0 then "Half Day Leave (Morning IN)"
  else if row.is_evening_half_day ≠ 0 then "Half Day Leave (Evening OUT)"
  else if row.early_out_units = 1 then "1 Hour Leave (Early OUT)"
  else if 0 < row.late_units then lateLabel row.late_units
  else if row.time_in = none ∨ row.time_out = none then "Incomplete Record"
  else "On Time"

/-- The column-attachment step shared by `generate_employee_report` and
`generate_consolidated_report`: apply `calculate_late_status` to `Time In`
and `calculate_early_out_status` to `Time Out` (the `pd.notna` guards
coincide with the functions' own `None` branches). -/
def classifyRecord (today : Nat) (r : AttendanceRecord) : ClassifiedRecord :=
  let li := calculate_late_status today r.time_in
  let eo := calculate_early_out_status today r.time_out
  { employee := r.employee
    time_in := r.time_in
    time_out := r.time_out
    late_units := li.1
    late_classification := li.2.1
    is_morning_half_day := li.2.2
    early_out_units := eo.1
    early_out_classification := eo.2.1
    is_evening_half_day := eo.2.2 }

/-- `df_processed[df_processed['Employee Name'] == employee_name]`. -/
def employeeFilter (rs : List ClassifiedRecord) (e : String) :
    List ClassifiedRecord :=
  rs.filter (fun r => r.employee = e)

/-- Per-employee mode: `employee_data['late_units'].sum()`. -/
def total_late_units (rs : List ClassifiedRecord) (e : String) : ℤ :=
  ((employeeFilter rs e).map (fun r => r.late_units)).sum

/-- Per-employee mode: `(employee_data['early_out_units'] == 1).sum()`. -/
def total_1_hr_leaves (rs : List ClassifiedRecord) (e : String) : Nat :=
  ((employeeFilter rs e).filter (fun r => r.early_out_units = 1)).length

/-- Per-employee mode: `employee_data['is_morning_half_day'].sum() +
employee_data['is_evening_half_day'].sum()`. -/
def total_half_day_incidents (rs : List ClassifiedRecord) (e : String) :
    Nat :=
  ((employeeFilter rs e).map (fun r => r.is_morning_half_day)).sum +
    ((employeeFilter rs e).map (fun r => r.is_evening_half_day)).sum

/-- Consolidated mode, `np.where((is_morning_half_day == 1) |
(is_evening_half_day == 1), 1, 0)`. -/
def is_half_day (r : ClassifiedRecord) : Nat :=
  if r.is_morning_half_day = 1 ∨ r.is_evening_half_day = 1 then 1 else 0

/-- Consolidated mode, `np.where((is_half_day == 0) &
(early_out_units == 1), 1, 0)`. -/
def is_one_hour_leave (r : ClassifiedRecord) : Nat :=
  if is_half_day r = 0 ∧ r.early_out_units = 1 then 1 else 0

/-- Consolidated mode: grouped `('late_units', 'sum')` for one group key. -/
def consolidated_late_units (rs : List ClassifiedRecord) (e : String) : ℤ :=
  ((employeeFilter rs e).map (fun r => r.late_units)).sum

/-- Consolidated mode: grouped `('is_half_day', 'sum')` for one group key. -/
def consolidated_half_day_incidents (rs : List ClassifiedRecord)
    (e : String) : Nat :=
  ((employeeFilter rs e).map is_half_day).sum

/-- Consolidated mode: grouped `('is_one_hour_leave', 'sum')` for one group
key. -/
def consolidated_one_hour_leaves (rs : List ClassifiedRecord) (e : String) :
    Nat :=
  ((employeeFilter rs e).map is_one_hour_leave).sum

/-- The classification pass applied to a whole processed record set. -/
def processRecords (today : Nat) (rs : List AttendanceRecord) :
    List ClassifiedRecord :=
  rs.map (classifyRecord today)

/-- The per-employee summary triple of `generate_employee_report`:
(`Total 15 Min Late Units`, `Total Half Day Incidents`,
`Total 1 Hour Leaves`). -/
def employeeSummary (today : Nat) (rs : List AttendanceRecord) (e : String) :
    ℤ × Nat × Nat :=
  let cs := processRecords today rs
  (total_late_units cs e, total_half_day_incidents cs e,
    total_1_hr_leaves cs e)

/-- The consolidated summary row of `generate_consolidated_report` for one
employee: (`15 Min Late Units`, `Half Day Incidents`, `1 Hour Leaves`). -/
def consolidatedSummary (today : Nat) (rs : List AttendanceRecord)
    (e : String) : ℤ × Nat × Nat :=
  let cs := processRecords today rs
  (consolidated_late_units cs e, consolidated_half_day_incidents cs e,
    consolidated_one_hour_leaves cs e)

/-- Cell access in the raw grid. The DataFrame produced by
`pd.read_excel`/`pd.read_csv` with `header=None` is rectangular and
`fillna('')` makes every absent cell the empty string, so reading past a
stored row's literal length within the frame's width yields `""`. -/
def cellS (g : List (List String)) (r c : Nat) : String :=
  (g.getD r []).getD c ""

/-- The frame's column count (rows are conceptually padded to the widest). -/
def ncolsOf (g : List (List String)) : Nat :=
  (g.map List.length).foldr max 0

/-- A stored row padded with `''` cells to the frame's width, as
`fillna('')` presents it. -/
def padRow (g : List (List String)) (r : Nat) : List String :=
  let row := g.getD r []
  row ++ List.replicate (ncolsOf g - row.length) ""

/-- `str(x).split(':')[-1].strip()`. -/
def trimLastColonSeg (s : String) : String :=
  pyStrip ((pySplitChar ':' s).getLastD "")

/-- One iteration of the per-employee-anchor loop of
`restructure_attendance_data`: the records contributed by the block anchored
at row `r` (given the global day headers). The `continue` on a blank name
cell and the inner `except IndexError: continue` (which fires exactly when
one of rows `r+1..r+3` lies past the end of the frame) contribute no
records. -/
def empBlock (fb : String → PdParse) (g : List (List String))
    (dayHeaders : List String) (r : Nat) : List RawRecord :=
  let employee_str := cellS g r 3
  if pyStrip employee_str = "" then []
  else if g.length ≤ r + 3 then []
  else
    let status_data := ((padRow g (r + 1)).drop 2).map pyStrip
    let intime_data := ((padRow g (r + 2)).drop 2).map pyStrip
    let outtime_data := ((padRow g (r + 3)).drop 2).map pyStrip
    let min_len := min (min dayHeaders.length status_data.length)
      (min intime_data.length outtime_data.length)
    let name := trimLastColonSeg employee_str
    (List.range min_len).map (fun i =>
      { employee := name
        day := dayHeaders.getD i ""
        status := status_data.getD i ""
        time_in := to_time_safe fb (intime_data.getD i "")
        time_out := to_time_safe fb (outtime_data.getD i "") })

/-- Drop of the `Status` column by the final
`df_clean[['Employee Name', 'Date/Day', 'Time In', 'Time Out']]`. -/
def projectRecord (r : RawRecord) : AttendanceRecord :=
  { employee := r.employee, day := r.day,
    time_in := r.time_in, time_out := r.time_out }

/-- `restructure_attendance_data(df_raw)`. The boolean is true when the
top-level `except` handler ran and displayed its structural-error
diagnostic (`st.error`); in every such case the function returns an empty
frame.

Faithfulness notes, keyed to the source:
* `df_raw[0]` raises `KeyError` on a frame with no column 0; caught by the
  outer handler.
* `days_row_index` is `df_raw[...].index.max()`. pandas `Index.max()` on an
  empty index returns `NaN`, never `None`, so the `if days_row_index is
  None` guard cannot fire when no row matches `^Days$`; instead the
  subsequent `df_raw.iloc[days_row_index, 2:]` raises `TypeError` on the
  `NaN`, again reaching the outer handler.
* `df_raw.iloc[emp_row_index, 3]` raises `IndexError` when the frame has at
  most 3 columns, as soon as the first anchor row is processed; outer
  handler again.
* The `if not temp_df.empty`, `if not final_data` and `if df_clean.empty`
  early returns all return the same empty frame that falls out of
  concatenating and filtering no rows, so they need no separate branch. -/
def restructure_attendance_data (fb : String → PdParse)
    (g : List (List String)) : List AttendanceRecord × Bool :=
  if ncolsOf g = 0 then ([], true)
  else
    let nrows := g.length
    let col0 := fun r => pyStrip (cellS g r 0)
    let empRows := (List.range nrows).filter
      (fun r => pyStartsWith (col0 r) "Employee:")
    let daysRows := (List.range nrows).filter (fun r => col0 r = "Days")
    match daysRows.max? with
    | none => ([], true)
    | some d =>
      let dayHeaders := ((padRow g d).drop 2).map pyStrip
      if empRows ≠ [] ∧ ncolsOf g ≤ 3 then ([], true)
      else
        let structured := (empRows.map (empBlock fb g dayHeaders)).flatten
        let clean := structured.filter (fun rec =>
          rec.status = "P" ∧ (rec.time_in ≠ none ∨ rec.time_out ≠ none))
        (clean.map projectRecord, false)

/-- A fallback oracle for concrete evaluations: `pd.to_datetime` coerces
everything to `NaT`. -/
def fbCoerce : String → PdParse := fun _ => PdParse.coerced

/-- Reference definition of `classify_in`, following the words of the
specification (§4.3): half-day window first, then signed late minutes
against `shift_start = 09:15`, then `ceil(late_minutes / 15)` with the
unit-count label. -/
def classify_in_spec : Option Nat → ℤ × String × Nat
  | none => (0, "Missing IN Time", 0)
  | some t =>
    if 10 * 3600 + 16 * 60 ≤ t ∧ t ≤ 13 * 3600 + 30 * 60 then
      (0, "Half Day Leave (Morning IN)", 1)
    else
      let late_minutes : ℚ := ((t : ℚ) - (9 * 3600 + 15 * 60 : ℚ)) / 60
      if late_minutes ≤ 0 then (0, "On Time", 0)
      else (⌈late_minutes / 15⌉, lateLabel ⌈late_minutes / 15⌉, 0)

/-- Dividing by 60 then comparing to 0 keeps the sign. -/
lemma div60_nonpos {x : ℚ} : x / 60 ≤ 0 ↔ x ≤ 0 := by
  rw [div_le_iff₀ (by norm_num : (0 : ℚ) < 60), zero_mul]

/-- `math.ceil(seconds / 60 / 15)` agrees with natural ceiling division by
`900`. -/
lemma ceil_sec_div (s : ℕ) :
    ⌈(s : ℚ) / 60 / 15⌉ = (((s + 899) / 900 : ℕ) : ℤ) := by
  have h : (s : ℚ) / 60 / 15 = (s : ℚ) / 900 := by ring
  rw [h, Int.ceil_eq_iff]
  refine ⟨?_, ?_⟩
  · rw [lt_div_iff₀ (by norm_num : (0 : ℚ) < 900)]
    have hn : ((s + 899) / 900 : ℕ) * 900 < s + 900 := by omega
    have hq : (((((s + 899) / 900 : ℕ) : ℤ) : ℚ)) * 900 < (s : ℚ) + 900 := by
      exact_mod_cast hn
    linarith
  · rw [div_le_iff₀ (by norm_num : (0 : ℚ) < 900)]
    have hn : s ≤ ((s + 899) / 900 : ℕ) * 900 := by omega
    exact_mod_cast hn

/-- Date-free integer characterization of `calculate_late_status` on a
present in-time: the anchoring date cancels out of every comparison and out
of the ceiling computation. -/
lemma calculate_late_status_some (today t : ℕ) :
    calculate_late_status today (some t) =
      if HALF_DAY_START_TIME_NEW ≤ t ∧ t ≤ HALF_DAY_END_TIME_NEW then
        (0, "Half Day Leave (Morning IN)", 1)
      else if t ≤ SHIFT_START then (0, "On Time", 0)
      else ((((t - SHIFT_START + 899) / 900 : ℕ) : ℤ),
            lateLabel (((t - SHIFT_START + 899) / 900 : ℕ) : ℤ), 0) := by
  simp only [calculate_late_status, LATE_UNIT_MINUTES, Nat.cast_ofNat]
  by_cases h1 : HALF_DAY_START_TIME_NEW ≤ t ∧ t ≤ HALF_DAY_END_TIME_NEW
  · rw [if_pos (by constructor <;> [omega; omega] :
      ((today : ℤ) * 86400 + HALF_DAY_START_TIME_NEW ≤
          (today : ℤ) * 86400 + t ∧
        (today : ℤ) * 86400 + t ≤
          (today : ℤ) * 86400 + HALF_DAY_END_TIME_NEW)), if_pos h1]
  · rw [if_neg (by intro hc; exact h1 (by constructor <;> omega)), if_neg h1]
    by_cases h2 : t ≤ SHIFT_START
    · rw [if_pos, if_pos h2]
      rw [div60_nonpos, sub_nonpos]
      exact_mod_cast (by omega :
        ((today : ℤ) * 86400 + t ≤ (today : ℤ) * 86400 + SHIFT_START))
    · rw [if_neg, if_neg h2]
      · have hsub :
            ((((today : ℤ) * 86400 + t : ℤ) : ℚ) -
              (((today : ℤ) * 86400 + SHIFT_START : ℤ) : ℚ)) =
            ((t - SHIFT_START : ℕ) : ℚ) := by
          push_cast [Nat.cast_sub (by omega : SHIFT_START ≤ t)]
          ring
        rw [hsub, ceil_sec_div]
      · rw [div60_nonpos, sub_nonpos]
        intro hc
        have hc' : ((today : ℤ) * 86400 + t : ℤ) ≤
            (today : ℤ) * 86400 + SHIFT_START := by exact_mod_cast hc
        omega

/-- Date-free integer characterization of `calculate_early_out_status` on a
present out-time. -/
lemma calculate_early_out_status_some (today t : ℕ) :
    calculate_early_out_status today (some t) =
      if SHIFT_END ≤ t then (0, "On Time/Overtime", 0)
      else if ONE_HOUR_LEAVE_START_TIME ≤ t ∧ t ≤ ONE_HOUR_LEAVE_END_TIME then
        (1, "1 Hour Leave", 0)
      else if t ≤ EVENING_HALF_DAY_TIME then (0, "Half Day Leave (Evening OUT)", 1)
      else (0, "Other Early Out", 0) := by
  simp only [calculate_early_out_status]
  by_cases h1 : SHIFT_END ≤ t
  · rw [if_pos, if_pos h1]
    rw [div60_nonpos, sub_nonpos]
    exact_mod_cast (by omega :
      ((today : ℤ) * 86400 + SHIFT_END ≤ (today : ℤ) * 86400 + t))
  · rw [if_neg, if_neg h1]
    · by_cases h2 : ONE_HOUR_LEAVE_START_TIME ≤ t ∧ t ≤ ONE_HOUR_LEAVE_END_TIME
      · rw [if_pos (by constructor <;> [omega; omega] :
          ((today : ℤ) * 86400 + ONE_HOUR_LEAVE_START_TIME ≤
              (today : ℤ) * 86400 + t ∧
            (today : ℤ) * 86400 + t ≤
              (today : ℤ) * 86400 + ONE_HOUR_LEAVE_END_TIME)), if_pos h2]
      · rw [if_neg (by intro hc; exact h2 (by constructor <;> omega)),
          if_neg h2]
        by_cases h3 : t ≤ EVENING_HALF_DAY_TIME
        · rw [if_pos (by omega :
            ((today : ℤ) * 86400 + t ≤
              (today : ℤ) * 86400 + EVENING_HALF_DAY_TIME)), if_pos h3]
        · rw [if_neg (by omega :
            ¬ ((today : ℤ) * 86400 + t ≤
              (today : ℤ) * 86400 + EVENING_HALF_DAY_TIME)), if_neg h3]
    · rw [div60_nonpos, sub_nonpos]
      intro hc
      have hc' : ((today : ℤ) * 86400 + SHIFT_END : ℤ) ≤
          (today : ℤ) * 86400 + t := by exact_mod_cast hc
      omega

/-- The spec's reference `classify_in` admits the same integer
characterization as the code's function. -/
lemma classify_in_spec_some (t : Nat) :
    classify_in_spec (some t) =
      if HALF_DAY_START_TIME_NEW ≤ t ∧ t ≤ HALF_DAY_END_TIME_NEW then
        (0, "Half Day Leave (Morning IN)", 1)
      else if t ≤ SHIFT_START then (0, "On Time", 0)
      else ((((t - SHIFT_START + 899) / 900 : ℕ) : ℤ),
            lateLabel (((t - SHIFT_START + 899) / 900 : ℕ) : ℤ), 0) := by
  simp only [classify_in_spec, HALF_DAY_START_TIME_NEW, HALF_DAY_END_TIME_NEW,
    SHIFT_START]
  by_cases h1 : 10 * 3600 + 16 * 60 ≤ t ∧ t ≤ 13 * 3600 + 30 * 60
  · rw [if_pos h1, if_pos h1]
  · rw [if_neg h1, if_neg h1]
    by_cases h2 : t ≤ 9 * 3600 + 15 * 60
    · rw [if_pos, if_pos h2]
      rw [div60_nonpos, sub_nonpos]
      exact_mod_cast h2
    · rw [if_neg, if_neg h2]
      · have hsub : ((t : ℚ) - (9 * 3600 + 15 * 60 : ℚ)) =
            ((t - (9 * 3600 + 15 * 60) : ℕ) : ℚ) := by
          push_cast [Nat.cast_sub (by omega : 9 * 3600 + 15 * 60 ≤ t)]
          ring
        rw [hsub, ceil_sec_div]
      · rw [div60_nonpos, sub_nonpos]
        intro hc
        exact h2 (by exact_mod_cast hc)

/-- The anchoring wall-clock date is invisible in `calculate_late_status`. -/
lemma calculate_late_status_date_free (d₁ d₂ : Nat) (x : Option Nat) :
    calculate_late_status d₁ x = calculate_late_status d₂ x := by
  cases x with
  | none => rfl
  | some t => rw [calculate_late_status_some, calculate_late_status_some]

/-- The anchoring wall-clock date is invisible in
`calculate_early_out_status`. -/
lemma calculate_early_out_status_date_free (d₁ d₂ : Nat) (x : Option Nat) :
    calculate_early_out_status d₁ x = calculate_early_out_status d₂ x := by
  cases x with
  | none => rfl
  | some t =>
    rw [calculate_early_out_status_some, calculate_early_out_status_some]

/-- The anchoring wall-clock date is invisible in the per-record
classification pass. -/
lemma classifyRecord_date_free (d₁ d₂ : Nat) (r : AttendanceRecord) :
    classifyRecord d₁ r = classifyRecord d₂ r := by
  simp only [classifyRecord, calculate_late_status_date_free d₁ d₂,
    calculate_early_out_status_date_free d₁ d₂]

/-- The anchoring wall-clock date is invisible in the whole classification
pass. -/
lemma processRecords_date_free (d₁ d₂ : Nat) (rs : List AttendanceRecord) :
    processRecords d₁ rs = processRecords d₂ rs := by
  simp only [processRecords]
  exact List.map_congr_left (fun r _ => classifyRecord_date_free d₁ d₂ r)

/-- C1. `calculate_late_status` coincides with the spec's reference
`classify_in` on every input (so the half-day window result carries zero
late units, the `t ≤ 09:15` range is "On Time", and every other late
in-time gets `ceil((t - 09:15) / 15 min)` units), and the spec's boundary
samples 09:16 → 1 unit, 09:30 → 1 unit, 09:31 → 2 units all hold. -/
theorem C1_classify_in_matches_spec :
    (∀ today x, calculate_late_status today x = classify_in_spec x) ∧
    calculate_late_status 0 (some (9 * 3600 + 16 * 60)) =
      (1, "1 x 15 Min Late", 0) ∧
    calculate_late_status 0 (some (9 * 3600 + 30 * 60)) =
      (1, "1 x 15 Min Late", 0) ∧
    calculate_late_status 0 (some (9 * 3600 + 31 * 60)) =
      (2, "2 x 15 Min Late", 0) ∧
    calculate_late_status 0 (some (9 * 3600 + 15 * 60)) =
      (0, "On Time", 0) := by
  refine ⟨fun today x => ?_, ?_, ?_, ?_, ?_⟩
  · cases x with
    | none => rfl
    | some t => rw [calculate_late_status_some, classify_in_spec_some]
  all_goals rw [calculate_late_status_some]; decide

/-- C2. `calculate_early_out_status` boundary semantics: 16:45 is an
evening half day, 16:46 and 17:44 are 1-hour leaves, every out-time of
17:45 or later is on time/overtime, and the whole inclusive 1-hour-leave
window classifies as a 1-hour leave (the window check runs before the
evening half-day check). -/
theorem C2_classify_out_boundaries :
    calculate_early_out_status 0 (some (16 * 3600 + 45 * 60)) =
      (0, "Half Day Leave (Evening OUT)", 1) ∧
    calculate_early_out_status 0 (some (16 * 3600 + 46 * 60)) =
      (1, "1 Hour Leave", 0) ∧
    calculate_early_out_status 0 (some (17 * 3600 + 44 * 60)) =
      (1, "1 Hour Leave", 0) ∧
    (∀ today t, 17 * 3600 + 45 * 60 ≤ t →
      calculate_early_out_status today (some t) =
        (0, "On Time/Overtime", 0)) ∧
    (∀ today t, ONE_HOUR_LEAVE_START_TIME ≤ t → t ≤ ONE_HOUR_LEAVE_END_TIME →
      calculate_early_out_status today (some t) = (1, "1 Hour Leave", 0)) := by
  refine ⟨?_, ?_, ?_, fun today t h₀ => ?_, fun today t h₁ h₂ => ?_⟩
  · rw [calculate_early_out_status_some]; decide
  · rw [calculate_early_out_status_some]; decide
  · rw [calculate_early_out_status_some]; decide
  · rw [calculate_early_out_status_some,
      if_pos (by simp only [SHIFT_END]; omega : SHIFT_END ≤ t)]
  · rw [calculate_early_out_status_some]
    have hne : ¬ SHIFT_END ≤ t := by
      simp only [ONE_HOUR_LEAVE_END_TIME] at h₂
      simp only [SHIFT_END]
      omega
    rw [if_neg hne, if_pos ⟨h₁, h₂⟩]

/-- Witness for C2: a strictly interior point of the 1-hour-leave window,
and points at 17:45 and strictly after it. -/
theorem C2_classify_out_boundaries_witness :
    calculate_early_out_status 7 (some (17 * 3600)) =
        (1, "1 Hour Leave", 0) ∧
      calculate_early_out_status 0 (some (17 * 3600 + 45 * 60)) =
        (0, "On Time/Overtime", 0) ∧
      calculate_early_out_status 0 (some (18 * 3600)) =
        (0, "On Time/Overtime", 0) :=
  ⟨C2_classify_out_boundaries.2.2.2.2 7 (17 * 3600) (by decide) (by decide),
    C2_classify_out_boundaries.2.2.2.1 0 (17 * 3600 + 45 * 60) (by decide),
    C2_classify_out_boundaries.2.2.2.1 0 (18 * 3600) (by decide)⟩

/-- C10. Any in-time strictly after 09:15 that is outside the morning
half-day window earns at least one late unit — including sub-minute
tardiness such as 09:15:01, which the permissive fallback parse can
deliver and which the strict `%H:%M` parse cannot. -/
theorem C10_subminute_tardiness_rounds_up :
    (∀ today t, SHIFT_START < t →
      ¬(HALF_DAY_START_TIME_NEW ≤ t ∧ t ≤ HALF_DAY_END_TIME_NEW) →
      1 ≤ (calculate_late_status today (some t)).1) ∧
    calculate_late_status 0 (some (9 * 3600 + 15 * 60 + 1)) =
      (1, "1 x 15 Min Late", 0) ∧
    to_time_safe (fun _ => PdParse.value (9 * 3600 + 15 * 60 + 1)) "09:15:01" =
      some (9 * 3600 + 15 * 60 + 1) := by
  refine ⟨fun today t h₁ h₂ => ?_, ?_, ?_⟩
  · rw [calculate_late_status_some, if_neg h₂, if_neg (by omega)]
    show (1 : ℤ) ≤ (((t - SHIFT_START + 899) / 900 : ℕ) : ℤ)
    have : 1 ≤ (t - SHIFT_START + 899) / 900 := by
      simp only [SHIFT_START] at h₁ ⊢
      omega
    exact_mod_cast this
  · rw [calculate_late_status_some]; decide
  · decide

/-- Witness for C10: 09:15:01 is counted late. -/
theorem C10_subminute_tardiness_rounds_up_witness :
    1 ≤ (calculate_late_status 0 (some (9 * 3600 + 15 * 60 + 1))).1 :=
  C10_subminute_tardiness_rounds_up.1 0 (9 * 3600 + 15 * 60 + 1) (by decide)
    (by decide)

/-- C9. The whole parse-then-classify-then-aggregate pipeline is
deterministic with respect to the wall-clock date anchoring the time
arithmetic: both classification passes, the per-day labels, and both
summary modes coincide for any two dates. (The extraction stage takes no
date at all.) -/
theorem C9_pipeline_date_independent :
    ∀ (d₁ d₂ : Nat) (rs : List AttendanceRecord) (e : String),
      processRecords d₁ rs = processRecords d₂ rs ∧
      (processRecords d₁ rs).map get_day_classification =
        (processRecords d₂ rs).map get_day_classification ∧
      employeeSummary d₁ rs e = employeeSummary d₂ rs e ∧
      consolidatedSummary d₁ rs e = consolidatedSummary d₂ rs e := by
  intro d₁ d₂ rs e
  have h := processRecords_date_free d₁ d₂ rs
  refine ⟨h, by rw [h], ?_, ?_⟩
  · simp only [employeeSummary, h]
  · simp only [consolidatedSummary, h]

/-- C3. The daily resolver gives a record with both half-day flags set the
full-day label whatever the other fields hold, and every record receives a
label from the fixed ladder. -/
theorem C3_day_classification_total :
    ∀ row : ClassifiedRecord,
      (row.is_morning_half_day ≠ 0 → row.is_evening_half_day ≠ 0 →
        get_day_classification row = "FULL Day Leave (Morn + Even Half)") ∧
      (get_day_classification row = "FULL Day Leave (Morn + Even Half)" ∨
        get_day_classification row = "Half Day Leave (Morning IN)" ∨
        get_day_classification row = "Half Day Leave (Evening OUT)" ∨
        get_day_classification row = "1 Hour Leave (Early OUT)" ∨
        (0 < row.late_units ∧
          get_day_classification row = lateLabel row.late_units) ∨
        get_day_classification row = "Incomplete Record" ∨
        get_day_classification row = "On Time") := by
  intro row
  constructor
  · intro hm he
    simp only [get_day_classification, if_pos (And.intro hm he)]
  · unfold get_day_classification
    split_ifs with h₁ h₂ h₃ h₄ h₅ h₆ <;> tauto

/-- Witness for C3: a record with both half-day flags, three late units and
an early-out unit still classifies as a full day leave. -/
theorem C3_day_classification_total_witness :
    get_day_classification
      { employee := "E", time_in := some 0, time_out := some 0,
        late_units := 3, late_classification := "L",
        is_morning_half_day := 1, early_out_units := 1,
        early_out_classification := "O", is_evening_half_day := 1 } =
      "FULL Day Leave (Morn + Even Half)" :=
  (C3_day_classification_total _).1 (by decide) (by decide)

/-- C4. Counting semantics of the two reporting modes: per-employee mode
adds both flags of a record (a both-flags record contributes 2) and counts
every `early_out_units == 1` record as a 1-hour leave; consolidated mode
caps a record's half-day contribution at 1 and never counts a half-day
record as a 1-hour leave. -/
theorem C4_reporting_mode_counting :
    (∀ (r : ClassifiedRecord) (rs : List ClassifiedRecord) (e : String),
      r.employee = e →
      total_half_day_incidents (r :: rs) e =
        (r.is_morning_half_day + r.is_evening_half_day) +
          total_half_day_incidents rs e) ∧
    (∀ (r : ClassifiedRecord) (rs : List ClassifiedRecord) (e : String),
      r.employee = e → r.is_morning_half_day = 1 → r.is_evening_half_day = 1 →
      total_half_day_incidents (r :: rs) e =
          2 + total_half_day_incidents rs e ∧
        consolidated_half_day_incidents (r :: rs) e =
          1 + consolidated_half_day_incidents rs e) ∧
    (∀ (r : ClassifiedRecord) (rs : List ClassifiedRecord) (e : String),
      r.employee = e → r.early_out_units = 1 →
      total_1_hr_leaves (r :: rs) e = 1 + total_1_hr_leaves rs e) ∧
    (∀ r : ClassifiedRecord, is_half_day r = 1 → is_one_hour_leave r = 0) ∧
    (∀ (r : ClassifiedRecord) (rs : List ClassifiedRecord) (e : String),
      r.employee = e →
      consolidated_one_hour_leaves (r :: rs) e =
        (if is_half_day r = 0 ∧ r.early_out_units = 1 then 1 else 0) +
          consolidated_one_hour_leaves rs e) := by
  refine ⟨?_, ?_, ?_, ?_, ?_⟩
  · intro r rs e h
    simp [total_half_day_incidents, employeeFilter, List.filter_cons, h]
    try omega
  · intro r rs e h hm he
    refine ⟨?_, ?_⟩
    · simp [total_half_day_incidents, employeeFilter, List.filter_cons, h,
        hm, he]
      try omega
    · simp [consolidated_half_day_incidents, employeeFilter,
        List.filter_cons, h, is_half_day, hm]
      try omega
  · intro r rs e h heo
    simp [total_1_hr_leaves, employeeFilter, List.filter_cons, h, heo]
    try omega
  · intro r hh
    simp [is_one_hour_leave, hh]
  · intro r rs e h
    simp [consolidated_one_hour_leaves, employeeFilter, List.filter_cons, h,
      is_one_hour_leave]
    try omega

/-- Witness for C4: a single both-flags record with an early-out unit is two
half-day incidents in per-employee mode but one in consolidated mode, is a
1-hour leave in per-employee mode, and is not one in consolidated mode. -/
theorem C4_reporting_mode_counting_witness :
    total_half_day_incidents
        [{ employee := "E", time_in := some 0, time_out := some 0,
           late_units := 0, late_classification := "L",
           is_morning_half_day := 1, early_out_units := 1,
           early_out_classification := "O", is_evening_half_day := 1 }] "E" =
        2 + total_half_day_incidents [] "E" ∧
      consolidated_half_day_incidents
        [{ employee := "E", time_in := some 0, time_out := some 0,
           late_units := 0, late_classification := "L",
           is_morning_half_day := 1, early_out_units := 1,
           early_out_classification := "O", is_evening_half_day := 1 }] "E" =
        1 + consolidated_half_day_incidents [] "E" ∧
      total_1_hr_leaves
        [{ employee := "E", time_in := some 0, time_out := some 0,
           late_units := 0, late_classification := "L",
           is_morning_half_day := 1, early_out_units := 1,
           early_out_classification := "O", is_evening_half_day := 1 }] "E" =
        1 + total_1_hr_leaves [] "E" ∧
      is_one_hour_leave
        { employee := "E", time_in := some 0, time_out := some 0,
          late_units := 0, late_classification := "L",
          is_morning_half_day := 1, early_out_units := 1,
          early_out_classification := "O", is_evening_half_day := 1 } = 0 :=
  ⟨(C4_reporting_mode_counting.2.1 _ [] "E" rfl rfl rfl).1,
    (C4_reporting_mode_counting.2.1 _ [] "E" rfl rfl rfl).2,
    C4_reporting_mode_counting.2.2.1 _ [] "E" rfl rfl,
    C4_reporting_mode_counting.2.2.2.1 _ (by decide)⟩

/-- C7. `to_time_safe` is total (it returns an `Option`, never propagating
a failure): a trimmed cell that is empty or one of the literals
`"00:00"`, `"nan"`, `"NaT"` is absent; otherwise a strict `%H:%M` parse
that succeeds wins; otherwise the permissive fallback's timestamp is used;
and when the fallback raises or coerces, the result is absent. -/
theorem C7_to_time_safe_total :
    ∀ (fb : String → PdParse) (s : String),
      ((pyStrip s = "" ∨ pyStrip s = "00:00" ∨ pyStrip s = "nan" ∨
          pyStrip s = "NaT") → to_time_safe fb s = none) ∧
      (¬(pyStrip s = "" ∨ pyStrip s = "00:00" ∨ pyStrip s = "nan" ∨
          pyStrip s = "NaT") →
        ∀ v, parseHM (pyStrip s) = some v → to_time_safe fb s = some v) ∧
      (¬(pyStrip s = "" ∨ pyStrip s = "00:00" ∨ pyStrip s = "nan" ∨
          pyStrip s = "NaT") → parseHM (pyStrip s) = none →
        ∀ v, fb (pyStrip s) = PdParse.value v → to_time_safe fb s = some v) ∧
      (¬(pyStrip s = "" ∨ pyStrip s = "00:00" ∨ pyStrip s = "nan" ∨
          pyStrip s = "NaT") → parseHM (pyStrip s) = none →
        (fb (pyStrip s) = PdParse.raised ∨ fb (pyStrip s) = PdParse.coerced) →
        to_time_safe fb s = none) := by
  intro fb s
  refine ⟨?_, ?_, ?_, ?_⟩
  · intro h
    simp only [to_time_safe, if_pos h]
  · intro h v hv
    simp only [to_time_safe, if_neg h, hv]
  · intro h hp v hf
    simp only [to_time_safe, if_neg h, hp, hf]
  · intro h hp hf
    simp only [to_time_safe, if_neg h, hp]
    rcases hf with hf | hf <;> rw [hf]

/-- Witness for C7: a padded strict `HH:MM` cell parses to its time of day
even under a fallback that always coerces. -/
theorem C7_to_time_safe_total_witness :
    to_time_safe fbCoerce " 09:30 " = some (9 * 3600 + 30 * 60) :=
  (C7_to_time_safe_total fbCoerce " 09:30 ").2.1 (by decide) _ (by decide)

/-- A concrete grid with one `Days` header row and one employee block whose
column-3 name cell ends in a colon. -/
def exGridC8 : List (List String) :=
  [["Days", "", "Mon", ""],
   ["Employee: 1", "", "", "x:"],
   ["", "", "P", ""],
   ["", "", "09:00", ""],
   ["", "", "18:00", ""]]

/-- C5. Evaluating extraction on a grid with no `Days` row: pandas
`Index.max()` on the empty match set yields `NaN` rather than `None`, the
`is None` guard does not fire, the subsequent `iloc` raises, and the
top-level handler reports a structural-error diagnostic (the `true` flag)
— contradicting the claim that the missing header is silent "no data". -/
theorem C5_missing_days_reaches_error_handler :
    ∀ (fb : String → PdParse) (g : List (List String)),
      (∀ row ∈ g, pyStrip (row.getD 0 "") ≠ "Days") →
      restructure_attendance_data fb g = ([], true) := by
  intro fb g h
  simp only [restructure_attendance_data]
  have hd : (List.range g.length).filter
      (fun r => pyStrip (cellS g r 0) = "Days") = [] := by
    rw [List.filter_eq_nil_iff]
    intro r hr
    rw [List.mem_range] at hr
    have hrow : g.getD r [] ∈ g := by
      rw [List.getD_eq_getElem g [] hr]
      exact List.getElem_mem hr
    simpa [cellS] using h (g.getD r []) hrow
  rw [hd]
  split_ifs <;> rfl

/-- Witness for C5: a one-cell grid with no `Days` row ends in the error
handler with an empty result. -/
theorem C5_missing_days_reaches_error_handler_witness :
    restructure_attendance_data fbCoerce [["x"]] = ([], true) :=
  C5_missing_days_reaches_error_handler fbCoerce [["x"]] (by decide)

/-- C8 counterexample. The claim that every extracted record carries a
non-empty employee name is false: on `exGridC8` the anchor's column-3 cell
is `"x:"`, whose trailing `':'`-segment strips to the empty string, and the
grid produces exactly one record — with an empty employee name. -/
theorem C8_empty_name_counterexample :
    (restructure_attendance_data fbCoerce exGridC8).1 =
      [{ employee := "", day := "Mon", time_in := some (9 * 3600),
         time_out := some (18 * 3600) }] := by decide

/-- C8 amended. Every extracted record's employee name is the trimmed
trailing `':'`-segment of the column-3 cell of an `Employee:`-anchored row,
and that cell itself is non-blank; the name, however, may still be empty
(exactly when the cell's trailing segment strips to nothing). -/
theorem C8_employee_name_from_anchor_cell :
    ∀ (fb : String → PdParse) (g : List (List String)) (r : AttendanceRecord),
      r ∈ (restructure_attendance_data fb g).1 →
      ∃ i : Nat, pyStartsWith (pyStrip (cellS g i 0)) "Employee:" = true ∧
        pyStrip (cellS g i 3) ≠ "" ∧
        r.employee = trimLastColonSeg (cellS g i 3) := by
  intro fb g r hmem
  simp only [restructure_attendance_data] at hmem
  split at hmem
  · simp at hmem
  · split at hmem
    · simp at hmem
    · split at hmem
      · simp at hmem
      · simp only [List.mem_map, List.mem_filter, List.mem_flatten]
          at hmem
        obtain ⟨rec, ⟨⟨blk, hblk, hrecblk⟩, -⟩, hproj⟩ := hmem
        obtain ⟨i, ⟨-, hpred⟩, rfl⟩ := hblk
        simp only [empBlock] at hrecblk
        split at hrecblk
        · simp at hrecblk
        · split at hrecblk
          · simp at hrecblk
          · rw [List.mem_map] at hrecblk
            obtain ⟨j, -, rfl⟩ := hrecblk
            refine ⟨i, by simpa using hpred, by assumption, ?_⟩
            rw [← hproj]
            rfl

/-- Witness for C8's amended theorem: the record extracted from `exGridC8`
does take its (here empty) name from a non-blank anchor cell. -/
theorem C8_employee_name_from_anchor_cell_witness :
    ∃ i : Nat,
      pyStartsWith (pyStrip (cellS exGridC8 i 0)) "Employee:" = true ∧
        pyStrip (cellS exGridC8 i 3) ≠ "" ∧
        ({ employee := "", day := "Mon", time_in := some (9 * 3600),
           time_out := some (18 * 3600) } : AttendanceRecord).employee =
          trimLastColonSeg (cellS exGridC8 i 3) :=
  C8_employee_name_from_anchor_cell fbCoerce exGridC8 _ (by decide)
